import Mathlib

/-!
Verification development for the device-negotiation and frame-synchronization
core of the octa-force rendering engine.

The Rust sources are embedded shallowly: every Vulkan query or driver response
becomes an explicit input (a capability snapshot, a surface-capability record,
an environment of call results), and each embedded function mirrors the
control flow of the Rust function it is named after.  Machine integers are
modelled as Nat (u32/u64 values) and Int (the scoring accumulator, an i32 that
never approaches its bounds in the modelled code paths); fallible code returns
Except, with a Rust panic modelled as an Except.error carrying the panic text.
-/

namespace OctaForce

/-- The six vk::PresentModeKHR values the engine handles
(src/vulkan/physical_device.rs, present_mode_prio). -/
inductive PresentModeKHR where
  | fifoRelaxed
  | fifo
  | mailbox
  | sharedContinuousRefresh
  | sharedDemandRefresh
  | immediate
  deriving DecidableEq, Repr, Inhabited

/-- The vk::PhysicalDeviceType values the scoring in
select_suitable_physical_device distinguishes. -/
inductive PhysicalDeviceType where
  | discreteGpu
  | integratedGpu
  | virtualGpu
  | cpu
  | other
  deriving DecidableEq, Repr, Inhabited

/-- vk::SurfaceFormatKHR: a pixel format code paired with a color-space code
(format identities are opaque to the selection logic, so both are Nat). -/
structure SurfaceFormatKHR where
  format : Nat
  color_space : Nat
  deriving DecidableEq, Repr, Inhabited

/-- The part of vk::QueueFamilyProperties that QueueFamily
(src/vulkan/queue.rs) inspects. -/
structure QueueFamilyProperties where
  queue_flags_graphics : Bool
  queue_flags_compute : Bool
  queue_count : Nat
  timestamp_valid_bits : Nat
  deriving DecidableEq, Repr, Inhabited

/-- QueueFamily from src/vulkan/queue.rs: an index, the raw properties and the
per-surface present-support query result. -/
structure QueueFamily where
  index : Nat
  inner : QueueFamilyProperties
  supports_present : Bool
  deriving DecidableEq, Repr, Inhabited

/-- QueueFamily::supports_graphics. -/
def QueueFamily.supports_graphics (f : QueueFamily) : Bool :=
  f.inner.queue_flags_graphics

/-- QueueFamily::supports_compute. -/
def QueueFamily.supports_compute (f : QueueFamily) : Bool :=
  f.inner.queue_flags_compute

/-- QueueFamily::has_queues. -/
def QueueFamily.has_queues (f : QueueFamily) : Bool :=
  f.inner.queue_count > 0

/-- QueueFamily::supports_timestamp_queries. -/
def QueueFamily.supports_timestamp_queries (f : QueueFamily) : Bool :=
  f.inner.timestamp_valid_bits > 0

/-- PhysicalDeviceCapabilities (src/vulkan/physical_device.rs): the cached
probe record for one candidate device.  The HashMap fields are modelled as
association lists, and the only hardware limit the selection logic reads
(max_memory_allocation_count) is kept from vk::PhysicalDeviceLimits. -/
structure PhysicalDeviceCapabilities where
  name : String
  device_type : PhysicalDeviceType
  max_memory_allocation_count : Nat
  limits_ok : Bool
  queues : List QueueFamily
  graphics_queues : List QueueFamily
  present_queues : List QueueFamily
  required_extensions : List (String × Bool)
  required_extensions_ok : Bool
  wanted_extensions : List (String × Bool)
  wanted_extensions_ok : Bool
  supported_surface_formats : List SurfaceFormatKHR
  supported_surface_formats_with_storage_bit : List SurfaceFormatKHR
  render_storage_image_formats : List Nat
  supported_depth_formats : List Nat
  supported_present_modes : List PresentModeKHR
  required_device_features : List (String × Bool)
  required_device_features_ok : Bool
  wanted_device_features : List (String × Bool)
  wanted_device_features_ok : Bool
  deriving DecidableEq, Repr, Inhabited

/-- The queue-family classification loop of PhysicalDeviceCapabilities::new:
families with queues supporting graphics, compute and timestamp queries go to
the graphics list, present-capable families to the present list. -/
def chooseQueueFamilies (queue_families : List QueueFamily) :
    List QueueFamily × List QueueFamily :=
  queue_families.foldl
    (fun (acc : List QueueFamily × List QueueFamily) family =>
      if family.has_queues then
        let graphics :=
          if family.supports_graphics && family.supports_compute
              && family.supports_timestamp_queries then
            acc.1 ++ [family]
          else acc.1
        let present :=
          if family.supports_present then acc.2 ++ [family] else acc.2
        (graphics, present)
      else acc)
    ([], [])

/-- The fixed preference order over present modes
(present_mode_prio in PhysicalDeviceCapabilities::new). -/
def present_mode_prio : List PresentModeKHR :=
  [PresentModeKHR.fifoRelaxed, PresentModeKHR.fifo, PresentModeKHR.mailbox,
   PresentModeKHR.sharedContinuousRefresh, PresentModeKHR.sharedDemandRefresh,
   PresentModeKHR.immediate]

/-- The reorder loop of PhysicalDeviceCapabilities::new: keep the supported
present modes, sorted by the fixed priority list. -/
def sortSupportedPresentModes (supported : List PresentModeKHR) :
    List PresentModeKHR :=
  present_mode_prio.foldl
    (fun acc wanted => if supported.contains wanted then acc ++ [wanted] else acc)
    []

/-- The membership test a name list gets in PhysicalDeviceCapabilities::new:
each requested name is paired with whether the device supports it, and the
conjunction of the flags is the ok bit. -/
def checkNameList (requested supported : List String) :
    List (String × Bool) × Bool :=
  let pairs := requested.map (fun nm => (nm, supported.contains nm))
  (pairs, pairs.all (fun p => p.2))

/-- The two flags Context::new derives from the engine configuration and
passes to select_suitable_physical_device. -/
structure SelectConfig where
  render_storage_image_format_is_needed : Bool
  surface_formats_with_storage_bit_is_wanted : Bool
  deriving DecidableEq, Repr, Inhabited

/-- Number of entries of an association list whose flag is false (the
missing wanted extensions or features of a candidate). -/
def countMissing (m : List (String × Bool)) : Nat :=
  (m.filter (fun p => !p.2)).length

/-- The body of the filter_map closure in select_suitable_physical_device
(src/vulkan/physical_device.rs lines 90-194): returns the ok flag of the hard
filter together with the accumulated minus_points score.  The statements
mirror the source order; note that in the source both wanted-penalty loops are
guarded by wanted_device_features_ok. -/
def probeDevice (cfg : SelectConfig) (c : PhysicalDeviceCapabilities) :
    Bool × Int :=
  let ok := true
  let minus_points : Int := 0
  let minus_points :=
    if c.device_type = PhysicalDeviceType.virtualGpu then minus_points - 150
    else if c.device_type = PhysicalDeviceType.cpu then minus_points - 100
    else if c.device_type = PhysicalDeviceType.integratedGpu then minus_points - 50
    else if c.device_type = PhysicalDeviceType.other then minus_points - 10
    else minus_points
  let ok := if !c.limits_ok then false else ok
  let ok := if c.graphics_queues.isEmpty then false else ok
  let ok := if c.present_queues.isEmpty then false else ok
  let ok := if c.supported_surface_formats.isEmpty then false else ok
  let minus_points :=
    if c.supported_surface_formats_with_storage_bit.isEmpty
        && cfg.surface_formats_with_storage_bit_is_wanted then
      minus_points - 10
    else minus_points
  let ok :=
    if c.supported_surface_formats_with_storage_bit.isEmpty
        && (cfg.render_storage_image_format_is_needed
            && c.render_storage_image_formats.isEmpty) then
      false
    else ok
  let ok := if c.supported_present_modes.isEmpty then false else ok
  let ok := if !c.required_extensions_ok then false else ok
  let minus_points :=
    if !c.wanted_device_features_ok then
      minus_points - 5 * (countMissing c.wanted_extensions : Int)
    else minus_points
  let ok := if !c.required_device_features_ok then false else ok
  let minus_points :=
    if !c.wanted_device_features_ok then
      minus_points - 5 * (countMissing c.wanted_device_features : Int)
    else minus_points
  (ok, minus_points)

/-- The seen_names deduplication plus filter_map of
select_suitable_physical_device: candidates are visited in order, a name is
probed only the first time it occurs, and only candidates whose hard filter
passes are kept (paired with their score). -/
def filterDevices (cfg : SelectConfig)
    (devices : List PhysicalDeviceCapabilities) :
    List (PhysicalDeviceCapabilities × Int) :=
  (devices.foldl
    (fun (acc : List String × List (PhysicalDeviceCapabilities × Int)) c =>
      if acc.1.contains c.name then acc
      else
        let seen := acc.1 ++ [c.name]
        let probed := probeDevice cfg c
        if probed.1 then (seen, acc.2 ++ [(c, probed.2)]) else (seen, acc.2))
    ([], [])).2

/-- The comparator passed to sort_by in select_suitable_physical_device
(line 200): descending on minus_points, then ascending on
max_memory_allocation_count. -/
def candidateOrder (a b : PhysicalDeviceCapabilities × Int) : Ordering :=
  (compare b.2 a.2).then
    (compare a.1.max_memory_allocation_count b.1.max_memory_allocation_count)

/-- Stable insertion into a sorted list: the new element goes after every
element it does not strictly precede, which preserves the original order of
elements the comparator considers equal. -/
def insertOrdered {α : Type} (cmp : α → α → Ordering) (x : α) :
    List α → List α
  | [] => [x]
  | y :: ys =>
    if cmp x y == Ordering.lt then x :: y :: ys
    else y :: insertOrdered cmp x ys

/-- A stable sort by a three-way comparator, modelling Vec::sort_by (which is
stable); a stable insertion sort yields the identical result. -/
def rustStableSortBy {α : Type} (cmp : α → α → Ordering) (l : List α) :
    List α :=
  l.foldl (fun acc x => insertOrdered cmp x acc) []

/-- PhysicalDevice (src/vulkan/physical_device.rs): the record
select_suitable_physical_device resolves for the chosen candidate. -/
structure PhysicalDevice where
  name : String
  device_type : PhysicalDeviceType
  max_memory_allocation_count : Nat
  graphics_queue_family : QueueFamily
  present_queue_family : QueueFamily
  wanted_extensions : List (String × Bool)
  surface_format : SurfaceFormatKHR
  render_storage_image_format : Nat
  depth_format : Nat
  present_mode : PresentModeKHR
  wanted_device_features : List (String × Bool)
  deriving DecidableEq, Repr, Inhabited

/-- Vec indexing as the embedded code performs it: out of range is a Rust
panic, modelled as an error value. -/
def vecIndex {α : Type} (l : List α) (i : Nat) : Except String α :=
  match l.get? i with
  | some x => Except.ok x
  | none => Except.error "index out of bounds"

/-- Instance::select_suitable_physical_device
(src/vulkan/physical_device.rs lines 72-262): dedup and hard-filter the
snapshot, fail on an empty survivor set, sort survivors by score, then resolve
the concrete configuration of the best candidate by indexing its capability
lists. -/
def select_suitable_physical_device (cfg : SelectConfig)
    (snapshot : List PhysicalDeviceCapabilities) :
    Except String PhysicalDevice :=
  let devices_capabilities := filterDevices cfg snapshot
  if devices_capabilities.isEmpty then
    Except.error "No suitable Device found!"
  else
    match (rustStableSortBy candidateOrder devices_capabilities).head? with
    | none => Except.error "No suitable Device found!"
    | some (sel, _) => do
      let surfacePick ←
        if !sel.supported_surface_formats_with_storage_bit.isEmpty then do
          let f ← vecIndex sel.supported_surface_formats_with_storage_bit 0
          pure (f, true)
        else do
          let f ← vecIndex sel.supported_surface_formats 0
          pure (f, false)
      let render_storage_image_format ←
        if surfacePick.2 then do
          let f ← vecIndex sel.supported_surface_formats_with_storage_bit 0
          pure f.format
        else
          vecIndex sel.render_storage_image_formats 0
      let depth_format ← vecIndex sel.supported_depth_formats 0
      let present_mode ← vecIndex sel.supported_present_modes 0
      let graphics_queue_family ← vecIndex sel.graphics_queues 0
      let present_queue_family ← vecIndex sel.present_queues 0
      pure
        { name := sel.name
          device_type := sel.device_type
          max_memory_allocation_count := sel.max_memory_allocation_count
          graphics_queue_family
          present_queue_family
          wanted_extensions := sel.wanted_extensions
          surface_format := surfacePick.1
          render_storage_image_format
          depth_format
          present_mode
          wanted_device_features := sel.wanted_device_features }

/-- The candidate the selection commits to before resolving formats
(selected_device_capabilities, line 209): the head of the sorted survivor
list. -/
def selectedCandidate (cfg : SelectConfig)
    (snapshot : List PhysicalDeviceCapabilities) :
    Option PhysicalDeviceCapabilities :=
  ((rustStableSortBy candidateOrder (filterDevices cfg snapshot)).head?).map
    (fun x => x.1)

/-- EngineFeatureValue (src/engine.rs): the three-level wish list per optional
capability. -/
inductive EngineFeatureValue where
  | notUsed
  | wanted
  | needed
  deriving DecidableEq, Repr, Inhabited

/-- The part of EngineConfig that Context::new consumes: the per-capability
levels plus the free-form extension and feature name lists. -/
structure EngineConfig where
  ray_tracing : EngineFeatureValue
  compute_rendering : EngineFeatureValue
  validation_layers : EngineFeatureValue
  shader_debug_printing : EngineFeatureValue
  shader_debug_clock : EngineFeatureValue
  gl_ext_scalar_block_layout : EngineFeatureValue
  required_extensions : List String
  wanted_extensions : List String
  required_device_features : List String
  wanted_device_features : List String
  deriving DecidableEq, Repr, Inhabited

/-- The compile-time configuration flags the cfg! tests in Context::new read. -/
structure BuildConfig where
  vulkan_pre_1_3 : Bool
  vulkan_1_3 : Bool
  target_macos : Bool
  debug_assertions : Bool
  deriving DecidableEq, Repr, Inhabited

/-- The four negotiation name lists Context::new hands to the capability
scanner and device selector. -/
structure NegotiatedLists where
  required_extensions : List String
  wanted_extensions : List String
  required_device_features : List String
  wanted_device_features : List String
  deriving DecidableEq, Repr, Inhabited

/-- Context::new lines 55-156 (src/vulkan/context.rs): build the
required/wanted extension and device-feature lists from the engine
configuration.  Mirrors the source arm by arm; in particular the ray-tracing
arms append to the required lists when the level is Wanted and to the wanted
lists when the level is Needed, exactly as written in the source. -/
def buildNegotiatedLists (bc : BuildConfig) (c : EngineConfig) :
    NegotiatedLists :=
  let re := c.required_extensions
  let we := c.wanted_extensions
  let rf := c.required_device_features
  let wf := c.wanted_device_features
  let re := re ++ ["VK_KHR_swapchain"]
  let vkPair :=
    if bc.vulkan_pre_1_3 then
      (re ++ ["VK_KHR_dynamic_rendering", "VK_KHR_synchronization2"],
       rf ++ ["dynamicRendering", "synchronization2"])
    else if bc.vulkan_1_3 then
      (re ++ ["VK_KHR_dynamic_rendering", "VK_KHR_synchronization2"],
       rf ++ ["dynamicRendering", "synchronization2"])
    else (re, rf)
  let re := vkPair.1
  let rf := vkPair.2
  let re := if bc.target_macos then re ++ ["VK_KHR_portability_subset"] else re
  let printing :=
    if bc.debug_assertions then
      if c.shader_debug_printing = EngineFeatureValue.wanted then
        (we ++ ["VK_KHR_shader_non_semantic_info"],
         wf ++ ["timelineSemaphore"], re, rf)
      else if c.shader_debug_printing = EngineFeatureValue.needed then
        (we, wf, re ++ ["VK_KHR_shader_non_semantic_info"],
         rf ++ ["timelineSemaphore"])
      else (we, wf, re, rf)
    else (we, wf, re, rf)
  let we := printing.1
  let wf := printing.2.1
  let re := printing.2.2.1
  let rf := printing.2.2.2
  let clock :=
    if c.shader_debug_clock = EngineFeatureValue.wanted then
      (we ++ ["VK_KHR_shader_clock"], wf ++ ["deviceClock"], re, rf)
    else if c.shader_debug_clock = EngineFeatureValue.needed then
      (we, wf ++ ["deviceClock"], re ++ ["VK_KHR_shader_clock"],
       rf ++ ["deviceClock"])
    else (we, wf, re, rf)
  let we := clock.1
  let wf := clock.2.1
  let re := clock.2.2.1
  let rf := clock.2.2.2
  let scalar :=
    if c.gl_ext_scalar_block_layout = EngineFeatureValue.wanted then
      (we ++ ["VK_EXT_scalar_block_layout"], re)
    else if c.gl_ext_scalar_block_layout = EngineFeatureValue.needed then
      (we, re ++ ["VK_EXT_scalar_block_layout"])
    else (we, re)
  let we := scalar.1
  let re := scalar.2
  let rt :=
    if c.ray_tracing = EngineFeatureValue.wanted then
      (we, wf,
       re ++ ["VK_KHR_ray_tracing_pipeline", "VK_KHR_acceleration_structure",
              "VK_KHR_deferred_host_operations"],
       rf ++ ["rayTracingPipeline", "accelerationStructure",
              "runtimeDescriptorArray", "bufferDeviceAddress"])
    else if c.ray_tracing = EngineFeatureValue.needed then
      (we ++ ["VK_KHR_ray_tracing_pipeline", "VK_KHR_acceleration_structure",
              "VK_KHR_deferred_host_operations"],
       wf ++ ["rayTracingPipeline", "accelerationStructure",
              "runtimeDescriptorArray", "bufferDeviceAddress"],
       re, rf)
    else (we, wf, re, rf)
  { required_extensions := rt.2.2.1
    wanted_extensions := rt.1
    required_device_features := rt.2.2.2
    wanted_device_features := rt.2.1 }

/-- Context::new lines 166-167: the two storage-format flags derived from the
configuration and passed to device selection. -/
def selectConfigOfEngineConfig (c : EngineConfig) : SelectConfig :=
  let needed := c.ray_tracing == EngineFeatureValue.needed
    || c.compute_rendering == EngineFeatureValue.needed
  { render_storage_image_format_is_needed := needed
    surface_formats_with_storage_bit_is_wanted := needed
      || c.ray_tracing == EngineFeatureValue.wanted
      || c.compute_rendering == EngineFeatureValue.wanted }

/-- The u32 maximum, the marker the surface uses for a flexible current
extent. -/
def u32MAX : Nat := 4294967295

/-- vk::Extent2D. -/
structure Extent2D where
  width : Nat
  height : Nat
  deriving DecidableEq, Repr, Inhabited

/-- The part of vk::SurfaceCapabilitiesKHR the swapchain code reads. -/
structure SurfaceCapabilities where
  current_extent : Extent2D
  min_image_extent : Extent2D
  max_image_extent : Extent2D
  min_image_count : Nat
  current_transform : Nat
  deriving DecidableEq, Repr, Inhabited

/-- The swapchain-extent rule shared verbatim by Swapchain::new and
Swapchain::resize (src/vulkan/swapchain.rs lines 50-60 and 169-179): a fixed
current extent wins, otherwise the request is clamped via
width.min(max).max(min) per dimension. -/
def chooseSwapchainExtent (caps : SurfaceCapabilities) (width height : Nat) :
    Extent2D :=
  if caps.current_extent.width ≠ u32MAX then caps.current_extent
  else
    { width := Nat.max (Nat.min width caps.max_image_extent.width)
        caps.min_image_extent.width
      height := Nat.max (Nat.min height caps.max_image_extent.height)
        caps.min_image_extent.height }

/-- The resolved-device data the swapchain reads from Context. -/
structure SwapchainDeviceInfo where
  graphics_queue_family_index : Nat
  present_queue_family_index : Nat
  surface_format : SurfaceFormatKHR
  depth_format : Nat
  present_mode : PresentModeKHR
  deriving DecidableEq, Repr, Inhabited

/-- The fields of the vk::SwapchainCreateInfoKHR the engine fills in. -/
structure SwapchainCreateInfoData where
  min_image_count : Nat
  image_format : Nat
  image_color_space : Nat
  image_extent : Extent2D
  image_array_layers : Nat
  usage_color_attachment : Bool
  usage_transfer_dst : Bool
  sharing_mode_concurrent : Bool
  queue_family_indices : List Nat
  pre_transform : Nat
  composite_alpha_opaque : Bool
  present_mode : PresentModeKHR
  clipped : Bool
  deriving DecidableEq, Repr, Inhabited

/-- The create info built by Swapchain::new (src/vulkan/swapchain.rs lines
49-102): image count is the surface minimum plus one, formats come from the
selected physical device. -/
def Swapchain.newCreateInfo (d : SwapchainDeviceInfo)
    (caps : SurfaceCapabilities) (width height : Nat) :
    SwapchainCreateInfoData :=
  let extent := chooseSwapchainExtent caps width height
  let image_count := caps.min_image_count + 1
  let concurrent :=
    d.graphics_queue_family_index ≠ d.present_queue_family_index
  { min_image_count := image_count
    image_format := d.surface_format.format
    image_color_space := d.surface_format.color_space
    image_extent := extent
    image_array_layers := 1
    usage_color_attachment := true
    usage_transfer_dst := true
    sharing_mode_concurrent := concurrent
    queue_family_indices :=
      if concurrent then
        [d.graphics_queue_family_index, d.present_queue_family_index]
      else []
    pre_transform := caps.current_transform
    composite_alpha_opaque := true
    present_mode := d.present_mode
    clipped := true }

/-- The Swapchain state (src/vulkan/swapchain.rs): resolved size and formats
plus the color image list and the matching depth image list.  Image and view
handles are modelled as Nat; the color handles are the ones the driver
returns, one fresh depth image is allocated per color image. -/
structure SwapchainState where
  size : Nat × Nat
  format : Nat
  depth_format : Nat
  color_space : Nat
  present_mode : PresentModeKHR
  images_and_views : List Nat
  depht_images_and_views : List Nat
  deriving DecidableEq, Repr, Inhabited

/-- Swapchain::new (src/vulkan/swapchain.rs lines 34-151); driver_images is
the image list vkGetSwapchainImagesKHR reports for the created chain. -/
def Swapchain.new (d : SwapchainDeviceInfo) (caps : SurfaceCapabilities)
    (width height : Nat) (driver_images : List Nat) : SwapchainState :=
  let extent := chooseSwapchainExtent caps width height
  { size := (extent.width, extent.height)
    format := d.surface_format.format
    depth_format := d.depth_format
    color_space := d.surface_format.color_space
    present_mode := d.present_mode
    images_and_views := driver_images
    depht_images_and_views := List.range driver_images.length }

/-- The create info built by Swapchain::resize (src/vulkan/swapchain.rs lines
168-215): image count is the surface minimum, format, color space and present
mode are taken from the existing chain state. -/
def Swapchain.resizeCreateInfo (s : SwapchainState)
    (d : SwapchainDeviceInfo) (caps : SurfaceCapabilities)
    (width height : Nat) : SwapchainCreateInfoData :=
  let extent := chooseSwapchainExtent caps width height
  let image_count := caps.min_image_count
  let concurrent :=
    d.graphics_queue_family_index ≠ d.present_queue_family_index
  { min_image_count := image_count
    image_format := s.format
    image_color_space := s.color_space
    image_extent := extent
    image_array_layers := 1
    usage_color_attachment := true
    usage_transfer_dst := true
    sharing_mode_concurrent := concurrent
    queue_family_indices :=
      if concurrent then
        [d.graphics_queue_family_index, d.present_queue_family_index]
      else []
    pre_transform := caps.current_transform
    composite_alpha_opaque := true
    present_mode := s.present_mode
    clipped := true }

/-- Swapchain::resize (src/vulkan/swapchain.rs lines 153-257): destroy both
image lists and the chain handle, recompute the extent from the fresh surface
capabilities, rebuild the chain and reassign size and both lists; format,
color space, depth format and present mode stay as resolved at creation. -/
def Swapchain.resize (s : SwapchainState) (caps : SurfaceCapabilities)
    (width height : Nat) (driver_images : List Nat) : SwapchainState :=
  let extent := chooseSwapchainExtent caps width height
  { s with
    size := (extent.width, extent.height)
    images_and_views := driver_images
    depht_images_and_views := List.range driver_images.length }

/-- vk::FenceCreateFlags: the engine only ever sets the SIGNALED bit. -/
structure FenceCreateFlags where
  signaled : Bool
  deriving DecidableEq, Repr, Inhabited

/-- vk::FenceCreateFlags::empty. -/
def FenceCreateFlags.empty : FenceCreateFlags :=
  { signaled := false }

/-- A fence handle with its current signal state. -/
structure Fence where
  signaled : Bool
  deriving DecidableEq, Repr, Inhabited

/-- Fence::new (src/vulkan/sync.rs lines 43-50): absent flags default to
empty, so the fence starts signaled exactly when the SIGNALED flag was
passed. -/
def Fence.new (flags : Option FenceCreateFlags) : Fence :=
  { signaled := (flags.getD FenceCreateFlags.empty).signaled }

/-- Outcome of a fence wait. -/
inductive WaitOutcome where
  | success
  | blocksForever
  deriving DecidableEq, Repr, Inhabited

/-- Fence::wait(None) (src/vulkan/sync.rs lines 52-62, timeout defaulted to
u64::MAX) in the situation where no queue submission references the fence:
vkWaitForFences returns at once when the fence is already signaled and can
otherwise never return, since nothing will ever signal it. -/
def Fence.waitNoPendingSubmission (f : Fence) : WaitOutcome :=
  if f.signaled then WaitOutcome.success else WaitOutcome.blocksForever

/-- PerFrame (src/lib.rs lines 467-472): the synchronization objects of one
in-flight slot.  Semaphores are modelled by Nat handles; distinct creation
calls yield distinct handles. -/
structure PerFrame where
  image_available_semaphore : Nat
  render_finished_semaphore : Nat
  fence : Fence
  timing_query_pool : Nat
  deriving DecidableEq, Repr, Inhabited

/-- InFlightFrames (src/lib.rs lines 462-465): the rotating ring of per-slot
synchronization objects used by the frame loop. -/
structure InFlightFrames where
  per_frames : List PerFrame
  current_frame : Nat
  deriving DecidableEq, Repr, Inhabited

/-- InFlightFrames::new (src/lib.rs lines 475-497): one record per requested
in-flight slot; slot i receives fresh semaphore handles (encoded 2i and 2i+1),
a fence created with vk::FenceCreateFlags::SIGNALED, and timestamp query pool
i. -/
def InFlightFrames.new (frame_count : Nat) : InFlightFrames :=
  { per_frames :=
      (List.range frame_count).map (fun i =>
        { image_available_semaphore := 2 * i
          render_finished_semaphore := 2 * i + 1
          fence := Fence.new (some { signaled := true })
          timing_query_pool := i })
    current_frame := 0 }

/-- InFlightFrames::next: advance the ring index modulo its length. -/
def InFlightFrames.next (f : InFlightFrames) : InFlightFrames :=
  { f with current_frame := (f.current_frame + 1) % f.per_frames.length }

/-- The slot record per_frames[current_frame]; the frame loop keeps the index
below the ring length, so the fallback default is unreachable there. -/
def InFlightFrames.currentSlot (f : InFlightFrames) : PerFrame :=
  (f.per_frames.get? f.current_frame).getD default

/-- InFlightFrames::image_available_semaphore (src/lib.rs lines 503-505). -/
def InFlightFrames.image_available_semaphore (f : InFlightFrames) : Nat :=
  f.currentSlot.image_available_semaphore

/-- InFlightFrames::render_finished_semaphore (src/lib.rs lines 507-509):
indexed by the current in-flight slot. -/
def InFlightFrames.render_finished_semaphore (f : InFlightFrames) : Nat :=
  f.currentSlot.render_finished_semaphore

/-- Fence::reset on the current slot, as invoked by the frame loop. -/
def InFlightFrames.resetCurrentFence (f : InFlightFrames) : InFlightFrames :=
  { f with
    per_frames := f.per_frames.set f.current_frame
      { f.currentSlot with fence := { signaled := false } } }

/-- u64::saturating_sub. -/
def u64_saturating_sub (a b : Nat) : Nat :=
  if b ≤ a then a - b else 0

/-- InFlightFrames::gpu_frame_time_ms (src/lib.rs lines 519-524): the
duration, in nanoseconds, is result[1].saturating_sub(result[0]) for the two
timestamps read back from the slot query pool. -/
def gpu_frame_time_nanos (result0 result1 : Nat) : Nat :=
  u64_saturating_sub result1 result0

/-- The vk::Result codes the frame loop distinguishes: ERROR_OUT_OF_DATE_KHR
and everything else. -/
inductive VkError where
  | outOfDateKhr
  | other (code : Nat)
  deriving DecidableEq, Repr, Inhabited

/-- AcquiredImage (src/vulkan/swapchain.rs lines 15-18). -/
structure AcquiredImage where
  index : Nat
  is_suboptimal : Bool
  deriving DecidableEq, Repr, Inhabited

/-- The results of the device-side calls Engine::draw performs, in call
order.  Each field stands for the response of the driver to that call in the
modelled frame. -/
structure DrawEnv where
  fence_wait_result : Except VkError Unit
  query_pool_results : Except VkError (Nat × Nat)
  acquire_result : Except VkError AcquiredImage
  submit_result : Except VkError Unit
  present_result : Except VkError Bool
  deriving Repr, Inhabited

/-- What the graphics-queue submission of Engine::draw carried. -/
structure SubmitRecord where
  command_buffer_index : Nat
  wait_semaphore : Nat
  signal_semaphore : Nat
  signal_fence_slot : Nat
  deriving DecidableEq, Repr, Inhabited

/-- What the present request of Engine::draw carried. -/
structure PresentRecord where
  image_index : Nat
  wait_semaphores : List Nat
  deriving DecidableEq, Repr, Inhabited

/-- How one Engine::draw call ends: a normal return carrying the
is_swapchain_dirty flag, an error bubbled out by the question-mark operator,
or one of the two explicit panics in the acquire and present match arms. -/
inductive DrawOutcome where
  | returned (is_swapchain_dirty : Bool)
  | errorPropagated (e : VkError)
  | panicked
  deriving DecidableEq, Repr, Inhabited

/-- The state Engine::draw reads and advances: the in-flight ring, the
frame-stats total frame counter and the configured in-flight count. -/
structure EngineSyncState where
  in_flight_frames : InFlightFrames
  total_frame_count : Nat
  num_frames_in_flight : Nat
  deriving DecidableEq, Repr, Inhabited

/-- The observable trace of one Engine::draw call. -/
structure DrawResult where
  outcome : DrawOutcome
  in_flight_frames : InFlightFrames
  total_frame_count : Nat
  gpu_time_nanos : Nat
  query_pool_read : Bool
  submitted : Option SubmitRecord
  presented : Option PresentRecord
  deriving DecidableEq, Repr, Inhabited

/-- Engine::draw (src/lib.rs lines 289-390), with the external render
collaborator and gui recording abstracted away (they do not touch the
synchronization objects).  Steps in source order: advance the ring; wait on
the slot fence; read the slot GPU time only when total_frame_count has
reached the in-flight count, else keep the default zero; tick the frame
counter; acquire (ERROR_OUT_OF_DATE_KHR returns dirty, other errors panic);
reset the slot fence; record into command_buffers[image_index]; submit
waiting on the slot image-available semaphore and signaling the slot
render-finished semaphore and slot fence; present waiting on that same
semaphore (suboptimal or ERROR_OUT_OF_DATE_KHR returns dirty, other errors
panic). -/
def Engine.draw (s : EngineSyncState) (env : DrawEnv) : DrawResult :=
  let frames := s.in_flight_frames.next
  match env.fence_wait_result with
  | Except.error e =>
    { outcome := DrawOutcome.errorPropagated e
      in_flight_frames := frames
      total_frame_count := s.total_frame_count
      gpu_time_nanos := 0
      query_pool_read := false
      submitted := none
      presented := none }
  | Except.ok _ =>
    let gpuStep : Except VkError (Bool × Nat) :=
      if s.num_frames_in_flight ≤ s.total_frame_count then
        match env.query_pool_results with
        | Except.error e => Except.error e
        | Except.ok ts => Except.ok (true, gpu_frame_time_nanos ts.1 ts.2)
      else Except.ok (false, 0)
    match gpuStep with
    | Except.error e =>
      { outcome := DrawOutcome.errorPropagated e
        in_flight_frames := frames
        total_frame_count := s.total_frame_count
        gpu_time_nanos := 0
        query_pool_read := true
        submitted := none
        presented := none }
    | Except.ok gpu =>
      let total := s.total_frame_count + 1
      match env.acquire_result with
      | Except.error VkError.outOfDateKhr =>
        { outcome := DrawOutcome.returned true
          in_flight_frames := frames
          total_frame_count := total
          gpu_time_nanos := gpu.2
          query_pool_read := gpu.1
          submitted := none
          presented := none }
      | Except.error (VkError.other _code) =>
        { outcome := DrawOutcome.panicked
          in_flight_frames := frames
          total_frame_count := total
          gpu_time_nanos := gpu.2
          query_pool_read := gpu.1
          submitted := none
          presented := none }
      | Except.ok img =>
        let image_index := img.index
        let frames := frames.resetCurrentFence
        let submitted := some
          { command_buffer_index := image_index
            wait_semaphore := frames.image_available_semaphore
            signal_semaphore := frames.render_finished_semaphore
            signal_fence_slot := frames.current_frame }
        match env.submit_result with
        | Except.error e =>
          { outcome := DrawOutcome.errorPropagated e
            in_flight_frames := frames
            total_frame_count := total
            gpu_time_nanos := gpu.2
            query_pool_read := gpu.1
            submitted
            presented := none }
        | Except.ok _ =>
          let presented := some
            { image_index
              wait_semaphores := [frames.render_finished_semaphore] }
          match env.present_result with
          | Except.ok true =>
            { outcome := DrawOutcome.returned true
              in_flight_frames := frames
              total_frame_count := total
              gpu_time_nanos := gpu.2
              query_pool_read := gpu.1
              submitted
              presented }
          | Except.error VkError.outOfDateKhr =>
            { outcome := DrawOutcome.returned true
              in_flight_frames := frames
              total_frame_count := total
              gpu_time_nanos := gpu.2
              query_pool_read := gpu.1
              submitted
              presented }
          | Except.error (VkError.other _code) =>
            { outcome := DrawOutcome.panicked
              in_flight_frames := frames
              total_frame_count := total
              gpu_time_nanos := gpu.2
              query_pool_read := gpu.1
              submitted
              presented }
          | Except.ok false =>
            { outcome := DrawOutcome.returned false
              in_flight_frames := frames
              total_frame_count := total
              gpu_time_nanos := gpu.2
              query_pool_read := gpu.1
              submitted
              presented }

/-! Concrete capability snapshots and frame-loop states used to evaluate the
embedded functions at specific inputs. -/

/-- A queue family supporting graphics, compute, present and timestamp
queries. -/
def okQueueFamily : QueueFamily :=
  { index := 0
    inner := { queue_flags_graphics := true, queue_flags_compute := true,
               queue_count := 1, timestamp_valid_bits := 64 }
    supports_present := true }

/-- A capability record satisfying every hard requirement of the device
filter: an all-purpose queue family, a supported surface format, a
storage-capable render format, one supported depth format, FIFO present mode
and no missing required or wanted names. -/
def fullyCapableDevice (nm : String) (ty : PhysicalDeviceType) :
    PhysicalDeviceCapabilities :=
  { name := nm
    device_type := ty
    max_memory_allocation_count := 4096
    limits_ok := true
    queues := [okQueueFamily]
    graphics_queues := [okQueueFamily]
    present_queues := [okQueueFamily]
    required_extensions := [("VK_KHR_swapchain", true)]
    required_extensions_ok := true
    wanted_extensions := []
    wanted_extensions_ok := true
    supported_surface_formats := [{ format := 44, color_space := 0 }]
    supported_surface_formats_with_storage_bit := []
    render_storage_image_formats := [37]
    supported_depth_formats := [129]
    supported_present_modes := [PresentModeKHR.fifo]
    required_device_features := []
    required_device_features_ok := true
    wanted_device_features := []
    wanted_device_features_ok := true }

/-- Selection flags of a configuration using neither ray tracing nor compute
rendering. -/
def defaultSelectConfig : SelectConfig :=
  { render_storage_image_format_is_needed := false
    surface_formats_with_storage_bit_is_wanted := false }

/-- A discrete device that meets every other hard requirement but reports no
supported depth format. -/
def deviceWithoutDepthFormat : PhysicalDeviceCapabilities :=
  { fullyCapableDevice "DiscreteNoDepth" PhysicalDeviceType.discreteGpu with
      supported_depth_formats := [] }

/-- An integrated device meeting every hard requirement, depth formats
included. -/
def integratedDeviceWithDepthFormat : PhysicalDeviceCapabilities :=
  fullyCapableDevice "IntegratedWithDepth" PhysicalDeviceType.integratedGpu

/-- A discrete device missing one wanted extension while supporting all of
its wanted device features. -/
def deviceMissingWantedExtension : PhysicalDeviceCapabilities :=
  { fullyCapableDevice "MissingWantedExt" PhysicalDeviceType.discreteGpu with
      wanted_extensions := [("VK_NV_mesh_shader", false)]
      wanted_extensions_ok := false }

/-- The same device additionally missing one wanted device feature. -/
def deviceMissingWantedExtensionAndFeature : PhysicalDeviceCapabilities :=
  { deviceMissingWantedExtension with
      wanted_device_features := [("shaderInt16", false)]
      wanted_device_features_ok := false }

/-- A device failing exactly the graphics-queue hard requirement. -/
def deviceWithoutGraphicsQueue : PhysicalDeviceCapabilities :=
  { fullyCapableDevice "NoGraphicsQueue" PhysicalDeviceType.discreteGpu with
      graphics_queues := [] }

/-- A device failing exactly the present-mode hard requirement. -/
def deviceWithoutPresentMode : PhysicalDeviceCapabilities :=
  { fullyCapableDevice "NoPresentMode" PhysicalDeviceType.discreteGpu with
      supported_present_modes := [] }

/-- An engine configuration requesting ray tracing at level Needed and
nothing else. -/
def rayTracingNeededConfig : EngineConfig :=
  { ray_tracing := EngineFeatureValue.needed
    compute_rendering := EngineFeatureValue.notUsed
    validation_layers := EngineFeatureValue.notUsed
    shader_debug_printing := EngineFeatureValue.notUsed
    shader_debug_clock := EngineFeatureValue.notUsed
    gl_ext_scalar_block_layout := EngineFeatureValue.notUsed
    required_extensions := []
    wanted_extensions := []
    required_device_features := []
    wanted_device_features := [] }

/-- The same configuration with ray tracing at level Wanted. -/
def rayTracingWantedConfig : EngineConfig :=
  { rayTracingNeededConfig with ray_tracing := EngineFeatureValue.wanted }

/-- A release build targeting Vulkan 1.3 on a non-mac platform. -/
def releaseBuildConfig : BuildConfig :=
  { vulkan_pre_1_3 := false
    vulkan_1_3 := true
    target_macos := false
    debug_assertions := false }

/-- Device info for the swapchain fixtures: shared graphics/present family,
so the exclusive sharing mode is taken. -/
def swapDeviceInfo : SwapchainDeviceInfo :=
  { graphics_queue_family_index := 0
    present_queue_family_index := 0
    surface_format := { format := 44, color_space := 0 }
    depth_format := 129
    present_mode := PresentModeKHR.fifo }

/-- Surface capabilities reporting a fixed current extent of 800 by 600 and a
minimum image count of 2. -/
def surfaceCapsFixed : SurfaceCapabilities :=
  { current_extent := { width := 800, height := 600 }
    min_image_extent := { width := 1, height := 1 }
    max_image_extent := { width := 4096, height := 4096 }
    min_image_count := 2
    current_transform := 1 }

/-- A frame-loop state in the middle of a run: an in-flight ring of size two
currently at slot zero, five frames counted so far. -/
def midRunFrameLoopState : EngineSyncState :=
  { in_flight_frames := InFlightFrames.new 2
    total_frame_count := 5
    num_frames_in_flight := 2 }

/-- A frame-loop state at startup: ring of size two, no frame counted yet. -/
def startupFrameLoopState : EngineSyncState :=
  { in_flight_frames := InFlightFrames.new 2
    total_frame_count := 0
    num_frames_in_flight := 2 }

/-- A fully successful frame in which the presentation engine hands out image
index 2 (a swapchain of three images driven by a ring of two slots). -/
def successfulFrameEnv : DrawEnv :=
  { fence_wait_result := Except.ok ()
    query_pool_results := Except.ok (100, 400)
    acquire_result := Except.ok { index := 2, is_suboptimal := false }
    submit_result := Except.ok ()
    present_result := Except.ok false }

/-- A frame in which the acquire call reports the chain out of date. -/
def acquireOutOfDateEnv : DrawEnv :=
  { fence_wait_result := Except.ok ()
    query_pool_results := Except.ok (0, 0)
    acquire_result := Except.error VkError.outOfDateKhr
    submit_result := Except.ok ()
    present_result := Except.ok false }

/-- Claim C1, evaluated at the failing input: with an in-flight ring of
size 2 and acquired image index 2, the graphics-queue submission signals
semaphore handle 3, which is the render-finished semaphore of in-flight slot
1 (the slots hold handles 1 and 3), and the present waits on that same
handle.  The ring only holds one render-finished semaphore per in-flight
slot, so no semaphore indexed by the image index 2 exists at all: the
semaphore is chosen by in-flight slot, contradicting the claim. -/
theorem render_finished_semaphore_is_slot_indexed :
    (Engine.draw midRunFrameLoopState successfulFrameEnv).submitted =
      some { command_buffer_index := 2, wait_semaphore := 2,
             signal_semaphore := 3, signal_fence_slot := 1 } ∧
    (Engine.draw midRunFrameLoopState successfulFrameEnv).presented =
      some { image_index := 2, wait_semaphores := [3] } ∧
    ((InFlightFrames.new 2).per_frames.map
      (fun p => p.render_finished_semaphore)) = [1, 3] ∧
    (InFlightFrames.new 2).per_frames.length = 2 := by
  refine ⟨rfl, rfl, rfl, rfl⟩

/-- Claim C2, evaluated at the failing input: a discrete device with an empty
supported-depth-format list passes the hard filter, is chosen as the selected
candidate even though an integrated device satisfying every requirement
(depth formats included) is available, and the selection then fails with the
out-of-bounds panic from indexing supported_depth_formats[0] instead of
returning the capable device. -/
theorem empty_depth_format_list_not_filtered :
    (probeDevice defaultSelectConfig deviceWithoutDepthFormat).1 = true ∧
    deviceWithoutDepthFormat.supported_depth_formats = [] ∧
    selectedCandidate defaultSelectConfig
        [deviceWithoutDepthFormat, integratedDeviceWithDepthFormat] =
      some deviceWithoutDepthFormat ∧
    select_suitable_physical_device defaultSelectConfig
        [deviceWithoutDepthFormat, integratedDeviceWithDepthFormat] =
      Except.error "index out of bounds" := by
  refine ⟨rfl, rfl, rfl, rfl⟩

/-- Claim C3, evaluated at the failing inputs: with ray tracing configured at
level Needed, the ray-tracing extension and feature names land in the wanted
(soft) lists and not in the required (hard) lists, and with level Wanted they
land in the required lists — the two levels are swapped for ray tracing,
contradicting the claim. -/
theorem ray_tracing_levels_swapped :
    ((buildNegotiatedLists releaseBuildConfig
        rayTracingNeededConfig).wanted_extensions.contains
      "VK_KHR_ray_tracing_pipeline") = true ∧
    ((buildNegotiatedLists releaseBuildConfig
        rayTracingNeededConfig).required_extensions.contains
      "VK_KHR_ray_tracing_pipeline") = false ∧
    ((buildNegotiatedLists releaseBuildConfig
        rayTracingNeededConfig).wanted_device_features.contains
      "rayTracingPipeline") = true ∧
    ((buildNegotiatedLists releaseBuildConfig
        rayTracingNeededConfig).required_device_features.contains
      "rayTracingPipeline") = false ∧
    ((buildNegotiatedLists releaseBuildConfig
        rayTracingWantedConfig).required_extensions.contains
      "VK_KHR_ray_tracing_pipeline") = true ∧
    ((buildNegotiatedLists releaseBuildConfig
        rayTracingWantedConfig).wanted_extensions.contains
      "VK_KHR_ray_tracing_pipeline") = false := by
  refine ⟨rfl, rfl, rfl, rfl, rfl, rfl⟩

/-- Claim C4, evaluated at the failing input: a surviving candidate missing
one wanted extension (k = 1) while supporting all wanted device features
(m = 0) receives a total penalty of 0 instead of the 5 the claim demands,
because the source gates the per-missing-wanted-extension penalty on the
wanted-device-features flag; the same candidate additionally missing one
wanted feature is penalized 10. -/
theorem wanted_extension_penalty_gated_on_features :
    countMissing deviceMissingWantedExtension.wanted_extensions = 1 ∧
    deviceMissingWantedExtension.wanted_device_features_ok = true ∧
    probeDevice defaultSelectConfig deviceMissingWantedExtension =
      (true, 0) ∧
    probeDevice defaultSelectConfig deviceMissingWantedExtensionAndFeature =
      (true, -10) := by
  refine ⟨rfl, rfl, rfl, rfl⟩

/-- Claim C5 counterexample: for the same surface capabilities and the same
requested extent, the create info built by resize differs from the one built
by create — resize requests the surface minimum image count while create
requests the minimum plus one. -/
theorem resize_create_info_differs_from_new :
    Swapchain.resizeCreateInfo
        (Swapchain.new swapDeviceInfo surfaceCapsFixed 800 600 [10, 11, 12])
        swapDeviceInfo surfaceCapsFixed 800 600 ≠
      Swapchain.newCreateInfo swapDeviceInfo surfaceCapsFixed 800 600 := by
  decide

/-- Claim C5 amended: resize rebuilds the chain with the same usage flags,
sharing mode, extent rule, and the format, color space and present mode
resolved at creation, but its image count is the surface minimum whereas
create uses the minimum plus one. -/
theorem resize_matches_create_except_image_count
    (d : SwapchainDeviceInfo) (caps0 caps : SurfaceCapabilities)
    (w0 h0 w h : Nat) (imgs : List Nat) :
    Swapchain.resizeCreateInfo (Swapchain.new d caps0 w0 h0 imgs) d caps w h =
      { Swapchain.newCreateInfo d caps w h with
          min_image_count := caps.min_image_count } ∧
    (Swapchain.newCreateInfo d caps w h).min_image_count =
      caps.min_image_count + 1 := by
  refine ⟨rfl, rfl⟩

/-- Claim C9 counterexample: two snapshots whose single device fails a
different hard requirement (no graphics queue family in one, no present mode
in the other) produce the identical fixed error string, so the error message
cannot be naming which requirement was unsatisfiable. -/
theorem selection_error_is_a_fixed_string :
    select_suitable_physical_device defaultSelectConfig
        [deviceWithoutGraphicsQueue] =
      Except.error "No suitable Device found!" ∧
    select_suitable_physical_device defaultSelectConfig
        [deviceWithoutPresentMode] =
      Except.error "No suitable Device found!" := by
  refine ⟨rfl, rfl⟩

/-- Claim C9 amended: when the candidate set is empty after hard filtering,
device selection returns no device and fails with the fixed error message
"No suitable Device found!", which does not name the unsatisfied requirement
(per-device missing requirements are only logged). -/
theorem selection_fails_on_empty_candidate_set (cfg : SelectConfig)
    (snapshot : List PhysicalDeviceCapabilities)
    (h : filterDevices cfg snapshot = []) :
    select_suitable_physical_device cfg snapshot =
      Except.error "No suitable Device found!" := by
  unfold select_suitable_physical_device
  simp [h]

/-- Witness for the amended C9 theorem at a concrete snapshot whose single
device fails the hard filter. -/
theorem selection_fails_on_empty_candidate_set_witness :
    filterDevices defaultSelectConfig [deviceWithoutGraphicsQueue] = [] ∧
    select_suitable_physical_device defaultSelectConfig
        [deviceWithoutGraphicsQueue] =
      Except.error "No suitable Device found!" :=
  ⟨rfl, selection_fails_on_empty_candidate_set defaultSelectConfig
    [deviceWithoutGraphicsQueue] rfl⟩

/-- Claim C6: when the slot fence wait and the telemetry read succeed, an
ERROR_OUT_OF_DATE_KHR result from acquire makes the draw call return
normally with the dirty flag set; the same holds for an
ERROR_OUT_OF_DATE_KHR (or suboptimal) result from present once acquire and
submit succeeded; any other error code from acquire or present makes the
draw call panic, terminating the frame loop. -/
theorem out_of_date_is_never_fatal (s : EngineSyncState) (env : DrawEnv)
    (hwait : env.fence_wait_result = Except.ok ())
    (ts : Nat × Nat) (hquery : env.query_pool_results = Except.ok ts) :
    (env.acquire_result = Except.error VkError.outOfDateKhr →
      (Engine.draw s env).outcome = DrawOutcome.returned true) ∧
    (∀ code, env.acquire_result = Except.error (VkError.other code) →
      (Engine.draw s env).outcome = DrawOutcome.panicked) ∧
    (∀ img, env.acquire_result = Except.ok img →
      env.submit_result = Except.ok () →
      (env.present_result = Except.error VkError.outOfDateKhr →
        (Engine.draw s env).outcome = DrawOutcome.returned true) ∧
      (env.present_result = Except.ok true →
        (Engine.draw s env).outcome = DrawOutcome.returned true) ∧
      (∀ code, env.present_result = Except.error (VkError.other code) →
        (Engine.draw s env).outcome = DrawOutcome.panicked)) := by
  obtain ⟨fw, qp, ar, sr, pr⟩ := env
  dsimp only at hwait hquery ⊢
  subst hwait
  subst hquery
  refine ⟨?_, ?_, ?_⟩
  · intro hacq
    subst hacq
    unfold Engine.draw
    by_cases hN : s.num_frames_in_flight ≤ s.total_frame_count <;>
      simp [hN]
  · intro code hacq
    subst hacq
    unfold Engine.draw
    by_cases hN : s.num_frames_in_flight ≤ s.total_frame_count <;>
      simp [hN]
  · intro img hacq hsub
    subst hacq
    subst hsub
    refine ⟨?_, ?_, ?_⟩
    · intro hpres
      subst hpres
      unfold Engine.draw
      by_cases hN : s.num_frames_in_flight ≤ s.total_frame_count <;>
        simp [hN]
    · intro hpres
      subst hpres
      unfold Engine.draw
      by_cases hN : s.num_frames_in_flight ≤ s.total_frame_count <;>
        simp [hN]
    · intro code hpres
      subst hpres
      unfold Engine.draw
      by_cases hN : s.num_frames_in_flight ≤ s.total_frame_count <;>
        simp [hN]

/-- Witness for the C6 theorem: a concrete frame in which acquire reports
out-of-date returns normally with the dirty flag. -/
theorem out_of_date_is_never_fatal_witness :
    (Engine.draw startupFrameLoopState acquireOutOfDateEnv).outcome =
      DrawOutcome.returned true :=
  (out_of_date_is_never_fatal startupFrameLoopState acquireOutOfDateEnv rfl
    (0, 0) rfl).1 rfl

/-- Claim C8: when the slot fence wait and query read succeed, a frame with
total_frame_count below the configured in-flight count records the default
zero GPU time without reading the timestamp query pool, and a frame at or
beyond that count reads the pool and records the end timestamp minus the
start timestamp, saturating at zero and hence never negative. -/
theorem gpu_time_skipped_for_first_frames (s : EngineSyncState)
    (env : DrawEnv) (hwait : env.fence_wait_result = Except.ok ())
    (ts : Nat × Nat) (hquery : env.query_pool_results = Except.ok ts) :
    (s.total_frame_count < s.num_frames_in_flight →
      (Engine.draw s env).query_pool_read = false ∧
      (Engine.draw s env).gpu_time_nanos = 0) ∧
    (s.num_frames_in_flight ≤ s.total_frame_count →
      (Engine.draw s env).query_pool_read = true ∧
      (ts.1 ≤ ts.2 → (Engine.draw s env).gpu_time_nanos = ts.2 - ts.1) ∧
      (ts.2 < ts.1 → (Engine.draw s env).gpu_time_nanos = 0)) := by
  obtain ⟨fw, qp, ar, sr, pr⟩ := env
  dsimp only at hwait hquery ⊢
  subst hwait
  subst hquery
  by_cases hN : s.num_frames_in_flight ≤ s.total_frame_count
  · refine ⟨fun hlt => absurd hN (by omega), fun _ => ?_⟩
    unfold Engine.draw
    rcases ar with e | img
    · rcases e <;>
        simp [hN, gpu_frame_time_nanos, u64_saturating_sub] <;> omega
    · rcases sr with e | u
      · simp [hN, gpu_frame_time_nanos, u64_saturating_sub]
        omega
      · rcases pr with e | b
        · rcases e <;>
            simp [hN, gpu_frame_time_nanos, u64_saturating_sub] <;> omega
        · rcases b <;>
            simp [hN, gpu_frame_time_nanos, u64_saturating_sub] <;> omega
  · refine ⟨fun _ => ?_, fun hge => absurd hge hN⟩
    unfold Engine.draw
    rcases ar with e | img
    · rcases e <;> simp [hN]
    · rcases sr with e | u
      · simp [hN]
      · rcases pr with e | b
        · rcases e <;> simp [hN]
        · rcases b <;> simp [hN]

/-- Witness for the C8 theorem: at startup (zero frames counted, two slots
in flight) the pool is not read and the recorded GPU time is zero. -/
theorem gpu_time_skipped_for_first_frames_witness :
    (Engine.draw startupFrameLoopState successfulFrameEnv).query_pool_read =
      false ∧
    (Engine.draw startupFrameLoopState successfulFrameEnv).gpu_time_nanos =
      0 :=
  (gpu_time_skipped_for_first_frames startupFrameLoopState successfulFrameEnv
    rfl (100, 400) rfl).1 (by decide)

/-- Claim C7: after resize, the chain size is the fixed current extent when
the surface reports one, and otherwise the requested extent clamped to the
min and max image extents of the surface; the rebuilt color image list and
depth image list have equal length. -/
theorem resize_extent_clamped_and_lists_matched (s : SwapchainState)
    (caps : SurfaceCapabilities) (width height : Nat)
    (driver_images : List Nat) :
    (caps.current_extent.width ≠ u32MAX →
      (Swapchain.resize s caps width height driver_images).size =
        (caps.current_extent.width, caps.current_extent.height)) ∧
    (caps.current_extent.width = u32MAX →
      (Swapchain.resize s caps width height driver_images).size =
        (Nat.max caps.min_image_extent.width
           (Nat.min width caps.max_image_extent.width),
         Nat.max caps.min_image_extent.height
           (Nat.min height caps.max_image_extent.height))) ∧
    (Swapchain.resize s caps width height
        driver_images).images_and_views.length =
      (Swapchain.resize s caps width height
        driver_images).depht_images_and_views.length := by
  unfold Swapchain.resize chooseSwapchainExtent
  refine ⟨?_, ?_, ?_⟩
  · intro h
    simp [h]
  · intro h
    simp [h, Nat.max_comm]
  · simp

/-- Witness for the C7 theorem: resizing a concrete chain on a surface with
a fixed 800 by 600 extent yields that size and equal list lengths. -/
theorem resize_extent_clamped_witness :
    (Swapchain.resize
        (Swapchain.new swapDeviceInfo surfaceCapsFixed 640 480 [10, 11])
        surfaceCapsFixed 800 600 [20, 21, 22]).size = (800, 600) ∧
    (Swapchain.resize
        (Swapchain.new swapDeviceInfo surfaceCapsFixed 640 480 [10, 11])
        surfaceCapsFixed 800 600 [20, 21, 22]).images_and_views.length =
      (Swapchain.resize
        (Swapchain.new swapDeviceInfo surfaceCapsFixed 640 480 [10, 11])
        surfaceCapsFixed 800 600 [20, 21, 22]).depht_images_and_views.length :=
  ⟨(resize_extent_clamped_and_lists_matched _ surfaceCapsFixed 800 600
      [20, 21, 22]).1 (by decide),
   (resize_extent_clamped_and_lists_matched _ surfaceCapsFixed 800 600
      [20, 21, 22]).2.2⟩

/-- Claim C10: every fence of a freshly constructed in-flight ring was
created with the SIGNALED flag, so the first wait the frame loop performs on
any slot succeeds even though no submission has ever targeted that slot. -/
theorem in_flight_fences_start_signaled (n : Nat) (pf : PerFrame)
    (h : pf ∈ (InFlightFrames.new n).per_frames) :
    pf.fence.signaled = true ∧
    pf.fence.waitNoPendingSubmission = WaitOutcome.success := by
  unfold InFlightFrames.new at h
  simp only [List.mem_map, List.mem_range] at h
  obtain ⟨i, _, rfl⟩ := h
  exact ⟨rfl, rfl⟩

/-- Witness for the C10 theorem: the first slot of a two-slot ring. -/
theorem in_flight_fences_start_signaled_witness :
    (({ image_available_semaphore := 0
        render_finished_semaphore := 1
        fence := Fence.new (some { signaled := true })
        timing_query_pool := 0 } : PerFrame).fence.signaled = true) ∧
    (({ image_available_semaphore := 0
        render_finished_semaphore := 1
        fence := Fence.new (some { signaled := true })
        timing_query_pool := 0 } : PerFrame).fence.waitNoPendingSubmission =
      WaitOutcome.success) :=
  in_flight_fences_start_signaled 2 _ (by decide)

end OctaForce
